import Mathlib

/-!
Shallow embedding of the token-refresh core of the withings-mcp repository.

Modules embedded (from the repository source):
- app/services/token_refresh.py : response parsing, configuration validation,
  refresh-due computation, authorization-URL construction;
- app/services/railway_client.py : external config publisher;
- src/routes/admin.py : route-level token persistence and admin gate variant;
- app/services/scheduler.py : background refresh loop;
- app/routes/admin.py : admin authentication gate.

Machine conventions: Python optional strings are `Option String` (with `none`
for Python `None`); Python truthiness of an optional string is `pyTruthy`;
timestamps are integer seconds (`Int`), so `datetime` arithmetic such as
`expires_at - timedelta(hours=h)` becomes `expires_at - h * 3600`; network
effects are represented by returning the request that would be sent, so a
function either returns an error result or the payload of the single POST it
would perform.
-/

namespace WithingsMCP

/-- Python truthiness of an optional string: `None` and the empty string are
falsy, every other string is truthy (`if not x:` in the source). -/
def pyTruthy : Option String → Bool
  | none => false
  | some s => !(s == "")

/-! ## app/services/token_refresh.py -/

/-- `TokenRefreshStatus` enum from app/services/token_refresh.py. -/
inductive TokenRefreshStatus
  | success
  | invalid_refresh_token
  | invalid_grant
  | network_error
  | api_error
  | configuration_error
  deriving DecidableEq, Repr

/-- `TokenRefreshResult` dataclass (timestamp field omitted: it is wall-clock
logging metadata set in `__post_init__`). Expiry fields are integer seconds. -/
structure TokenRefreshResult where
  status : TokenRefreshStatus
  access_token : Option String := none
  refresh_token : Option String := none
  expires_in : Option Int := none
  expires_at : Option Int := none
  user_id : Option String := none
  error_message : Option String := none
  deriving DecidableEq, Repr

/-- `TokenRefreshResult.is_success` property. -/
def TokenRefreshResult.is_success (r : TokenRefreshResult) : Bool :=
  r.status == TokenRefreshStatus.success

/-- `TokenRefreshResult.requires_reauthorization` property. -/
def TokenRefreshResult.requires_reauthorization (r : TokenRefreshResult) : Bool :=
  r.status == TokenRefreshStatus.invalid_refresh_token

/-- The `body` object of a Withings token-endpoint JSON response
(`data["body"]` in `_parse_token_response`). Absent keys are `none`. -/
structure WithingsTokenBody where
  access_token : Option String := none
  refresh_token : Option String := none
  expires_in : Option Int := none
  userid : Option String := none
  deriving DecidableEq, Repr

/-- A Withings token-endpoint JSON response as inspected by
`_parse_token_response`: `status`, `body` and `error` keys, absent keys `none`. -/
structure WithingsTokenResponse where
  status : Option Int := none
  body : Option WithingsTokenBody := none
  error : Option String := none
  deriving DecidableEq, Repr

namespace WithingsTokenRefreshService

/-- Class constant `STATUS_SUCCESS = 0`. -/
def STATUS_SUCCESS : Int := 0

/-- Class constant `STATUS_INVALID_REFRESH_TOKEN = 26`. -/
def STATUS_INVALID_REFRESH_TOKEN : Int := 26

/-- Class constant `STATUS_INVALID_AUTHORIZATION_CODE = 29`. -/
def STATUS_INVALID_AUTHORIZATION_CODE : Int := 29

/-- Effective instance configuration of `WithingsTokenRefreshService` after
`__init__` resolved constructor arguments against the environment.
`env_refresh_token` models the `WITHINGS_REFRESH_TOKEN` environment variable
read inside `refresh_token`. -/
structure Config where
  client_id : Option String := none
  client_secret : Option String := none
  redirect_uri : String := "https://withings-mcp-production.up.railway.app/auth/callback"
  env_refresh_token : Option String := none
  deriving DecidableEq, Repr

/-- `_validate_configuration`: first missing credential wins, returning
`(False, message)`; `(True, None)` when client id and secret are both set. -/
def validate_configuration (cfg : Config) : Bool × Option String :=
  if ¬ pyTruthy cfg.client_id then
    (false, some "WITHINGS_CLIENT_ID not configured")
  else if ¬ pyTruthy cfg.client_secret then
    (false, some "WITHINGS_CLIENT_SECRET not configured")
  else
    (true, none)

/-- `_parse_token_response` at current time `now` (seconds):
status 0 builds a success result with `expires_at = now + expires_in`
(default 1209600 seconds when the body lacks `expires_in`); status 26 and 29
map to the two terminal errors; anything else is an API error carrying
`data["error"]` when present. -/
def parse_token_response (now : Int) (data : WithingsTokenResponse) :
    TokenRefreshResult :=
  let status := data.status.getD (-1)
  if status = STATUS_SUCCESS then
    let body := data.body.getD {}
    let expires_in := body.expires_in.getD 1209600
    { status := TokenRefreshStatus.success
      access_token := body.access_token
      refresh_token := body.refresh_token
      expires_in := some expires_in
      expires_at := some (now + expires_in)
      user_id := some (body.userid.getD "") }
  else if status = STATUS_INVALID_REFRESH_TOKEN then
    { status := TokenRefreshStatus.invalid_refresh_token
      error_message :=
        some "Refresh token is invalid or expired. User must re-authorize the application." }
  else if status = STATUS_INVALID_AUTHORIZATION_CODE then
    { status := TokenRefreshStatus.invalid_grant
      error_message := some "Authorization code is invalid or expired." }
  else
    { status := TokenRefreshStatus.api_error
      error_message :=
        some (data.error.getD ("Unknown error (status: " ++ toString status ++ ")")) }

/-- Outcome of the pre-network portion of `refresh_token`: either a
configuration-error result returned before any network activity, or the
form-encoded payload of the single POST to the token endpoint. -/
inductive RefreshAttempt
  | configError (result : TokenRefreshResult)
  | networkRequest (payload : List (String × String))
  deriving DecidableEq, Repr

/-- The effective refresh token used by `refresh_token`:
`refresh_token or os.getenv("WITHINGS_REFRESH_TOKEN")`. -/
def effectiveRefreshToken (cfg : Config) (refresh_tok : Option String) :
    Option String :=
  if pyTruthy refresh_tok then refresh_tok else cfg.env_refresh_token

/-- `refresh_token` up to its first network interaction (lines 143-178):
validate configuration, resolve the refresh token, and either fail with
`CONFIGURATION_ERROR` or issue the POST with the five payload fields. -/
def refresh_token_attempt (cfg : Config) (refresh_tok : Option String) :
    RefreshAttempt :=
  match validate_configuration cfg with
  | (false, msg) =>
      RefreshAttempt.configError
        { status := TokenRefreshStatus.configuration_error, error_message := msg }
  | (true, _) =>
      let tok := effectiveRefreshToken cfg refresh_tok
      if ¬ pyTruthy tok then
        RefreshAttempt.configError
          { status := TokenRefreshStatus.configuration_error
            error_message := some "WITHINGS_REFRESH_TOKEN not configured" }
      else
        RefreshAttempt.networkRequest
          [("action", "requesttoken"),
           ("grant_type", "refresh_token"),
           ("client_id", cfg.client_id.getD ""),
           ("client_secret", cfg.client_secret.getD ""),
           ("refresh_token", tok.getD "")]

/-- `get_next_refresh_time` with an explicit `expires_at` (seconds):
`expires_at - timedelta(hours=buffer_hours)`. -/
def get_next_refresh_time (expires_at : Int) (buffer_hours : Int) : Int :=
  expires_at - buffer_hours * 3600

/-- `should_refresh_now` with an explicit `expires_at`, at current time `now`
(seconds): `datetime.now(timezone.utc) >= next_refresh`. -/
def should_refresh_now (now expires_at buffer_hours : Int) : Bool :=
  decide (get_next_refresh_time expires_at buffer_hours ≤ now)

end WithingsTokenRefreshService

/-! ## URL construction (`get_authorization_url`) and query parsing

Strings handed to `urllib.parse.urlencode` are modelled at the byte level
(UTF-8 code units as `Nat`, each below 256), which makes percent-encoding
exact. `strBytes` injects the concrete ASCII literals of the source. -/

/-- Byte representation of a concrete ASCII string literal. -/
def strBytes (s : String) : List Nat := s.toList.map Char.toNat

/-- The characters `quote_plus` leaves unescaped: ASCII letters, digits and
`_` `.` `-` `~` (the always-safe set of `urllib.parse.quote` with `safe`
empty, as `urlencode` uses via `quote_via=quote_plus`). -/
def safeByte (b : Nat) : Bool :=
  (65 ≤ b && b ≤ 90) || (97 ≤ b && b ≤ 122) || (48 ≤ b && b ≤ 57) ||
    b == 95 || b == 46 || b == 45 || b == 126

/-- Uppercase hexadecimal digit character of a nibble, per `quote`. -/
def hexDigit (n : Nat) : Nat := if n < 10 then 48 + n else 55 + n

/-- `quote_plus` on a single byte: safe bytes pass through, a space becomes
`+` (43), any other byte becomes `%XX`. -/
def quotePlusByte (b : Nat) : List Nat :=
  if safeByte b then [b]
  else if b = 32 then [43]
  else [37, hexDigit (b / 16), hexDigit (b % 16)]

/-- `urllib.parse.quote_plus` over a byte string. -/
def quote_plus (s : List Nat) : List Nat := (s.map quotePlusByte).flatten

/-- Bytes accepted as hexadecimal digits by `unquote` (both cases). -/
def isHexDigit (c : Nat) : Bool :=
  (48 ≤ c && c ≤ 57) || (65 ≤ c && c ≤ 70) || (97 ≤ c && c ≤ 102)

/-- Numeric value of a hexadecimal digit byte. -/
def hexVal (c : Nat) : Nat :=
  if c ≤ 57 then c - 48 else if c ≤ 70 then c - 55 else c - 87

/-- `urllib.parse.unquote_plus`: `+` decodes to a space, `%XX` with two hex
digits decodes to the byte, malformed escapes stay literal. -/
def unquote_plus : List Nat → List Nat
  | [] => []
  | b :: rest =>
    if b = 43 then 32 :: unquote_plus rest
    else if b = 37 then
      match rest with
      | h1 :: h2 :: rest2 =>
        if isHexDigit h1 && isHexDigit h2 then
          (16 * hexVal h1 + hexVal h2) :: unquote_plus rest2
        else 37 :: unquote_plus (h1 :: h2 :: rest2)
      | [h1] => 37 :: unquote_plus [h1]
      | [] => [37]
    else b :: unquote_plus rest
termination_by l => l.length
decreasing_by all_goals simp <;> omega

/-- `urllib.parse.urlencode`: ampersand-joined `quote_plus(k)=quote_plus(v)`
pairs (61 is the byte of the equals sign, 38 of the ampersand). -/
def urlencode : List (List Nat × List Nat) → List Nat
  | [] => []
  | [p] => quote_plus p.1 ++ [61] ++ quote_plus p.2
  | p :: ps => quote_plus p.1 ++ [61] ++ quote_plus p.2 ++ [38] ++ urlencode ps

namespace WithingsTokenRefreshService

/-- Class constant `AUTHORIZATION_ENDPOINT`. -/
def AUTHORIZATION_ENDPOINT : String :=
  "https://account.withings.com/oauth2_user/authorize2"

/-- The scope literal of `get_authorization_url`. -/
def AUTH_SCOPE : String := "user.metrics,user.activity,user.sleepevents"

/-- `get_authorization_url` over byte strings: the five-parameter query in
source order, with `state or "withings_oauth"` (so `None` and the empty
string both fall back to the constant), appended to the authorization
endpoint after a question mark (byte 63). -/
def get_authorization_url (client_id redirect_uri : List Nat)
    (state : Option (List Nat)) : List Nat :=
  let stateValue : List Nat :=
    match state with
    | some s => if s = [] then strBytes "withings_oauth" else s
    | none => strBytes "withings_oauth"
  let params : List (List Nat × List Nat) :=
    [(strBytes "response_type", strBytes "code"),
     (strBytes "client_id", client_id),
     (strBytes "redirect_uri", redirect_uri),
     (strBytes "scope", strBytes AUTH_SCOPE),
     (strBytes "state", stateValue)]
  strBytes AUTHORIZATION_ENDPOINT ++ [63] ++ urlencode params

end WithingsTokenRefreshService

/-- The query part of a URL: everything after the first question mark. -/
def queryOf : List Nat → List Nat
  | [] => []
  | b :: rest => if b = 63 then rest else queryOf rest

/-- Split a query string at every ampersand (byte 38). -/
def splitAmp : List Nat → List (List Nat)
  | [] => [[]]
  | b :: rest =>
    if b = 38 then [] :: splitAmp rest
    else
      match splitAmp rest with
      | [] => [[b]]
      | g :: gs => (b :: g) :: gs

/-- Split a `key=value` component at the first equals sign (byte 61). -/
def splitEqFirst : List Nat → List Nat × List Nat
  | [] => ([], [])
  | b :: rest =>
    if b = 61 then ([], rest)
    else
      let p := splitEqFirst rest
      (b :: p.1, p.2)

/-- Query-string parsing in the style of `urllib.parse.parse_qsl`: split on
ampersands, split each component at its first equals sign, percent-decode
keys and values. -/
def parse_qs (q : List Nat) : List (List Nat × List Nat) :=
  (splitAmp q).map fun part =>
    (unquote_plus (splitEqFirst part).1, unquote_plus (splitEqFirst part).2)

/-! ## app/services/railway_client.py -/

/-- `RailwayUpdateStatus` enum. -/
inductive RailwayUpdateStatus
  | success
  | partial_success
  | authentication_error
  | project_not_found
  | service_not_found
  | api_error
  | configuration_error
  | deployment_pending
  | deployment_failed
  deriving DecidableEq, Repr

/-- `RailwayUpdateResult` dataclass (timestamp logging field omitted;
`variables_updated` defaults to the empty list as in `__post_init__`). -/
structure RailwayUpdateResult where
  status : RailwayUpdateStatus
  variables_updated : List String := []
  deployment_id : Option String := none
  deployment_url : Option String := none
  error_message : Option String := none
  deriving DecidableEq, Repr

namespace RailwayClient

/-- Effective instance configuration of `RailwayClient` after `__init__`
resolved constructor arguments against the environment (`environment_id`
falls back to the string "production" via the `os.getenv` default, but may
still be any value the caller passed). -/
structure Config where
  api_token : Option String := none
  project_id : Option String := none
  service_id : Option String := none
  environment_id : Option String := some "production"
  deriving DecidableEq, Repr

/-- `RailwayClient._validate_configuration`: checks the API token, project id
and service id in order and reports only the first missing one; the
environment id is never checked. -/
def validate_configuration (cfg : Config) : Bool × Option String :=
  if ¬ pyTruthy cfg.api_token then
    (false, some "RAILWAY_API_TOKEN not configured")
  else if ¬ pyTruthy cfg.project_id then
    (false, some "RAILWAY_PROJECT_ID not configured")
  else if ¬ pyTruthy cfg.service_id then
    (false, some "RAILWAY_SERVICE_ID not configured")
  else
    (true, none)

/-- Outcome of the pre-network portion of `update_environment_variables`:
either a configuration-error result returned before any network activity, or
the name-to-value variable map of the single GraphQL upsert mutation. -/
inductive UpdateAttempt
  | configError (result : RailwayUpdateResult)
  | networkRequest (vars : List (String × String))
  deriving DecidableEq, Repr

/-- `update_environment_variables` up to its network call (lines 148-190),
called as the admin routes call it (no `additional_vars`): validate, then
build the four-variable map; `expires_at_iso` and `now_iso` stand for
`expires_at.isoformat()` and `datetime.now(timezone.utc).isoformat()`. -/
def update_environment_variables_attempt (cfg : Config)
    (access_token refresh_token expires_at_iso now_iso : String) : UpdateAttempt :=
  match validate_configuration cfg with
  | (false, msg) =>
      UpdateAttempt.configError
        { status := RailwayUpdateStatus.configuration_error, error_message := msg }
  | (true, _) =>
      UpdateAttempt.networkRequest
        [("WITHINGS_ACCESS_TOKEN", access_token),
         ("WITHINGS_REFRESH_TOKEN", refresh_token),
         ("WITHINGS_TOKEN_EXPIRES_AT", expires_at_iso),
         ("WITHINGS_TOKEN_LAST_REFRESHED", now_iso)]

/-- The success result built after an error-free response (lines 210-216):
`variables_updated=list(variables.keys())`, names only. -/
def update_environment_variables_success (vars : List (String × String)) :
    RailwayUpdateResult :=
  { status := RailwayUpdateStatus.success
    variables_updated := vars.map Prod.fst }

end RailwayClient

/-! ## src/routes/admin.py (route-level variant) -/

/-- Environment read by `persist_tokens_to_railway`. -/
structure PersistEnv where
  railway_token : Option String := none
  project_id : Option String := none
  service_id : Option String := none
  environment_id : Option String := none
  deriving DecidableEq, Repr

/-- Outcome of the pre-network portion of `persist_tokens_to_railway`: either
the failure dictionary returned before any network activity, or the ordered
list of variable upserts (name, value) it would POST. -/
inductive PersistAttempt
  | configError (persisted : Bool) (message : String)
  | networkRequests (upserts : List (String × String))
  deriving DecidableEq, Repr

/-- The `missing` list built by `persist_tokens_to_railway` when
`not all([...])`: one fixed-order check per identifier, appending the name of
every missing one. -/
def persist_missing (env : PersistEnv) : List String :=
  (if ¬ pyTruthy env.railway_token then ["RAILWAY_API_TOKEN"] else []) ++
  (if ¬ pyTruthy env.project_id then ["RAILWAY_PROJECT_ID"] else []) ++
  (if ¬ pyTruthy env.service_id then ["RAILWAY_SERVICE_ID"] else []) ++
  (if ¬ pyTruthy env.environment_id then ["RAILWAY_ENVIRONMENT_ID"] else [])

/-- `persist_tokens_to_railway` up to its network calls: all four identifiers
present sends the two variable upserts, otherwise returns
`persisted=False` with a message joining every missing name. -/
def persist_tokens_to_railway (env : PersistEnv)
    (access_token refresh_token : String) : PersistAttempt :=
  if pyTruthy env.railway_token && pyTruthy env.project_id &&
      pyTruthy env.service_id && pyTruthy env.environment_id then
    PersistAttempt.networkRequests
      [("WITHINGS_ACCESS_TOKEN", access_token),
       ("WITHINGS_REFRESH_TOKEN", refresh_token)]
  else
    PersistAttempt.configError false
      ("Missing Railway config: " ++ String.intercalate ", " (persist_missing env))

/-! ## app/services/scheduler.py -/

/-- Python exception classes relevant to the scheduler: `asyncio.CancelledError`
derives from `BaseException` and is not caught by `except Exception`; every
other raised error is an `Exception` with a message. -/
inductive PyExc
  | cancelled
  | exception (msg : String)
  deriving DecidableEq, Repr

/-- The dictionary returned by `service.do_refresh()` as far as
`refresh_token_job` inspects it (`result.get("success")`, logging fields). -/
structure RefreshJobOutcome where
  success : Bool := false
  expires_at : Option String := none
  persisted : Option Bool := none
  error : Option String := none
  deriving DecidableEq, Repr

/-- `refresh_token_job`: runs the refresh inside `try/except Exception`, so a
returned dictionary (successful or failed) and any raised `Exception` all
produce a normal return after logging; only `CancelledError` (a
`BaseException`) escapes. The argument is the outcome of the wrapped body. -/
def refresh_token_job (outcome : Except PyExc RefreshJobOutcome) :
    Except PyExc Unit :=
  match outcome with
  | Except.ok _ => Except.ok ()
  | Except.error (PyExc.exception _) => Except.ok ()
  | Except.error PyExc.cancelled => Except.error PyExc.cancelled

/-- What one iteration of `scheduler_loop` does next: sleep some seconds and
continue, or leave the loop. -/
inductive LoopStep
  | continueAfter (sleepSeconds : Nat)
  | exitLoop
  deriving DecidableEq, Repr

/-- Default `REFRESH_INTERVAL_SECONDS` (env default "7200"). -/
def REFRESH_INTERVAL_SECONDS : Nat := 7200

/-- The `try/except` body of one `while _scheduler_running` iteration of
`scheduler_loop`: a job that returns normally is followed by the normal
interval sleep; `CancelledError` breaks the loop; any other exception
reaching the loop body is logged and followed by the 60-second backoff. -/
def scheduler_loop_body (interval : Nat) (jobResult : Except PyExc Unit) :
    LoopStep :=
  match jobResult with
  | Except.ok _ => LoopStep.continueAfter interval
  | Except.error PyExc.cancelled => LoopStep.exitLoop
  | Except.error (PyExc.exception _) => LoopStep.continueAfter 60

/-- One full scheduler cycle: the loop body applied to the job wrapper
applied to the refresh outcome. -/
def scheduler_cycle (interval : Nat) (outcome : Except PyExc RefreshJobOutcome) :
    LoopStep :=
  scheduler_loop_body interval (refresh_token_job outcome)

/-- An `asyncio.Task` as far as `start_scheduler` inspects it. -/
structure PyTask where
  done : Bool
  deriving DecidableEq, Repr

/-- The module-global scheduler state (`_scheduler_task`,
`_scheduler_running`) plus `activeLoops`, the count of loop tasks created by
`asyncio.create_task` and not yet finished. -/
structure SchedulerState where
  task : Option PyTask := none
  running : Bool := false
  activeLoops : Nat := 0
  deriving DecidableEq, Repr

/-- `start_scheduler`: when a not-done task already exists it warns and
returns (second component `true` marks the warning no-op); otherwise it sets
the running flag and creates a fresh (not done) loop task. -/
def start_scheduler (s : SchedulerState) : SchedulerState × Bool :=
  match s.task with
  | some t =>
    if ¬ t.done then (s, true)
    else
      ({ task := some { done := false }, running := true
         activeLoops := s.activeLoops + 1 }, false)
  | none =>
      ({ task := some { done := false }, running := true
         activeLoops := s.activeLoops + 1 }, false)

/-! ## Admin authentication gates -/

/-- Environment read by the admin gates: the shared secret and the
`ENVIRONMENT` variable (raw, before its "production" default). -/
structure AdminEnv where
  admin_api_token : Option String := none
  environment : Option String := none
  deriving DecidableEq, Repr

/-- `_verify_admin_token` from app/routes/admin.py: with no configured secret
the gate is open only when `ENVIRONMENT` (default "production") equals
"development"; with a secret it compares the header to it. -/
def verify_admin_token_app (env : AdminEnv) (x_admin_token : Option String) :
    Bool :=
  if ¬ pyTruthy env.admin_api_token then
    if env.environment.getD "production" == "development" then true
    else false
  else
    x_admin_token == env.admin_api_token

/-- `verify_admin_token` from src/routes/admin.py: no configured secret is a
503, a wrong header a 401. -/
def verify_admin_token_src (env : AdminEnv) (x_admin_token : Option String) :
    Except Nat Bool :=
  if ¬ pyTruthy env.admin_api_token then Except.error 503
  else if x_admin_token == env.admin_api_token then Except.ok true
  else Except.error 401

/-- The four gated admin operations of app/routes/admin.py. -/
inductive AdminOp
  | tokenStatus
  | tokenRefresh
  | authorizationUrl
  | tokenExchange
  deriving DecidableEq, Repr

/-- The shared prologue of the four gated handlers in app/routes/admin.py:
`if not _verify_admin_token(x_admin_token): raise HTTPException(401)`. -/
def admin_op_gate_app (op : AdminOp) (env : AdminEnv)
    (x_admin_token : Option String) : Except Nat Unit :=
  match op with
  | _ =>
    if verify_admin_token_app env x_admin_token then Except.ok ()
    else Except.error 401

/-! ## Theorems -/

open WithingsTokenRefreshService

/-- C1: `_parse_token_response` maps vendor status 0 to a success result,
status 26 to `INVALID_REFRESH_TOKEN` with `requires_reauthorization` true,
status 29 to `INVALID_GRANT`, and any other status to `API_ERROR` carrying
the vendor's error message when one is present. -/
theorem claim_C1_parse_status_mapping (now : Int) (data : WithingsTokenResponse) :
    (data.status = some 0 →
      (parse_token_response now data).status = TokenRefreshStatus.success)
    ∧ (data.status = some 26 →
      (parse_token_response now data).status = TokenRefreshStatus.invalid_refresh_token
      ∧ (parse_token_response now data).requires_reauthorization = true)
    ∧ (data.status = some 29 →
      (parse_token_response now data).status = TokenRefreshStatus.invalid_grant)
    ∧ (∀ n : Int, data.status = some n → n ≠ 0 → n ≠ 26 → n ≠ 29 →
      (parse_token_response now data).status = TokenRefreshStatus.api_error
      ∧ ∀ m, data.error = some m →
        (parse_token_response now data).error_message = some m) := by
  refine ⟨fun h => ?_, fun h => ?_, fun h => ?_, fun n h h0 h26 h29 => ?_⟩
  · simp [parse_token_response, h, STATUS_SUCCESS]
  · simp [parse_token_response, h, STATUS_SUCCESS, STATUS_INVALID_REFRESH_TOKEN,
      TokenRefreshResult.requires_reauthorization]
  · simp [parse_token_response, h, STATUS_SUCCESS, STATUS_INVALID_REFRESH_TOKEN,
      STATUS_INVALID_AUTHORIZATION_CODE]
  · constructor
    · simp [parse_token_response, h, STATUS_SUCCESS, STATUS_INVALID_REFRESH_TOKEN,
        STATUS_INVALID_AUTHORIZATION_CODE, h0, h26, h29]
    · intro m hm
      simp [parse_token_response, h, hm, STATUS_SUCCESS, STATUS_INVALID_REFRESH_TOKEN,
        STATUS_INVALID_AUTHORIZATION_CODE, h0, h26, h29]

/-- Witness for C1 at a concrete status-26 payload. -/
theorem claim_C1_witness :
    (parse_token_response 0 { status := some 26 }).status =
      TokenRefreshStatus.invalid_refresh_token
    ∧ (parse_token_response 0 { status := some 26 }).requires_reauthorization = true :=
  (claim_C1_parse_status_mapping 0 { status := some 26 }).2.1 rfl

/-- C2: for every expiry timestamp, every buffer (hours, nonnegative) and
every current time, `should_refresh_now` is true exactly when the current
time has reached `expires_at` minus the buffer, and `get_next_refresh_time`
returns `expires_at` minus the buffer. -/
theorem claim_C2_refresh_due (expires_at buffer_hours now : Int)
    (h : 0 ≤ buffer_hours) :
    (should_refresh_now now expires_at buffer_hours = true ↔
      expires_at - buffer_hours * 3600 ≤ now)
    ∧ get_next_refresh_time expires_at buffer_hours =
      expires_at - buffer_hours * 3600 := by
  exact ⟨by simp [should_refresh_now, get_next_refresh_time], rfl⟩

/-- Witness for C2 at concrete times. -/
theorem claim_C2_witness :
    (should_refresh_now 5 86500 24 = true ↔ (86500 : Int) - 24 * 3600 ≤ 5)
    ∧ get_next_refresh_time 86500 24 = 86500 - 24 * 3600 :=
  claim_C2_refresh_due 86500 24 5 (by decide)

/-- C3: `refresh_token` returns a `CONFIGURATION_ERROR` result with no
network call exactly when the client id, client secret or the effective
(explicit-or-stored) refresh token is empty or absent; the vendor endpoint is
reached only with all three non-empty. -/
theorem claim_C3_refresh_requires_configuration
    (cfg : WithingsTokenRefreshService.Config) (refresh_tok : Option String) :
    (¬ (pyTruthy cfg.client_id = true ∧ pyTruthy cfg.client_secret = true
        ∧ pyTruthy (effectiveRefreshToken cfg refresh_tok) = true) →
      ∃ r, refresh_token_attempt cfg refresh_tok = RefreshAttempt.configError r
        ∧ r.status = TokenRefreshStatus.configuration_error)
    ∧ (∀ payload,
      refresh_token_attempt cfg refresh_tok = RefreshAttempt.networkRequest payload →
      pyTruthy cfg.client_id = true ∧ pyTruthy cfg.client_secret = true
        ∧ pyTruthy (effectiveRefreshToken cfg refresh_tok) = true) := by
  cases hci : pyTruthy cfg.client_id <;>
    cases hcs : pyTruthy cfg.client_secret <;>
      cases hrt : pyTruthy (effectiveRefreshToken cfg refresh_tok) <;>
        simp [refresh_token_attempt, validate_configuration, hci, hcs, hrt]

/-- Witness for C3 on an unconfigured service. -/
theorem claim_C3_witness :
    ∃ r, refresh_token_attempt {} none = RefreshAttempt.configError r
      ∧ r.status = TokenRefreshStatus.configuration_error :=
  (claim_C3_refresh_requires_configuration {} none).1 (by decide)

/-- C4: a successful parse at time `now` yields
`expires_at = now + expires_in`, defaulting `expires_in` to 1209600 seconds
when the body omits it; in particular `expires_in = 10800` gives
`expires_at = now + 10800`, on which `should_refresh_now` with the 24-hour
buffer is immediately true. -/
theorem claim_C4_expiry_computation (now : Int) (data : WithingsTokenResponse)
    (body : WithingsTokenBody) (hs : data.status = some 0)
    (hb : data.body = some body) :
    (parse_token_response now data).expires_at =
      some (now + body.expires_in.getD 1209600)
    ∧ (body.expires_in = none →
      (parse_token_response now data).expires_at = some (now + 1209600))
    ∧ (body.expires_in = some 10800 →
      (parse_token_response now data).expires_at = some (now + 10800)
      ∧ should_refresh_now now (now + 10800) 24 = true) := by
  refine ⟨?_, fun h10 => ?_, fun h10 => ⟨?_, ?_⟩⟩
  · simp [parse_token_response, hs, hb, STATUS_SUCCESS]
  · simp [parse_token_response, hs, hb, h10, STATUS_SUCCESS]
  · simp [parse_token_response, hs, hb, h10, STATUS_SUCCESS]
  · simp only [should_refresh_now, get_next_refresh_time, decide_eq_true_eq]
    omega

/-- Witness for C4 at a concrete successful payload. -/
theorem claim_C4_witness :
    (parse_token_response 1000
      { status := some 0, body := some { expires_in := some 10800 } }).expires_at =
        some (1000 + 10800)
    ∧ should_refresh_now 1000 (1000 + 10800) 24 = true :=
  (claim_C4_expiry_computation 1000
    { status := some 0, body := some { expires_in := some 10800 } }
    { expires_in := some 10800 } rfl rfl).2.2 rfl

/-- C5 counterexample: with both the API token and the project id missing,
`RailwayClient.update_environment_variables` returns a configuration error
whose message names only `RAILWAY_API_TOKEN`; the result is identical to the
one produced when the project id is present, so the message cannot be listing
exactly the missing identifiers. -/
theorem claim_C5_counterexample :
    RailwayClient.update_environment_variables_attempt
      { api_token := none, project_id := none, service_id := some "svc",
        environment_id := some "production" } "a" "r" "e" "t"
      = RailwayClient.UpdateAttempt.configError
        { status := RailwayUpdateStatus.configuration_error
          error_message := some "RAILWAY_API_TOKEN not configured" }
    ∧ RailwayClient.update_environment_variables_attempt
      { api_token := none, project_id := none, service_id := some "svc",
        environment_id := some "production" } "a" "r" "e" "t"
      = RailwayClient.update_environment_variables_attempt
        { api_token := none, project_id := some "proj", service_id := some "svc",
          environment_id := some "production" } "a" "r" "e" "t" := by
  exact ⟨rfl, rfl⟩

/-- C5 amended: `RailwayClient.update_environment_variables` validates only
three identifiers (API token, project id, service id; the environment id has
a default and is never checked) and on failure returns a `ConfigurationError`
naming just the first missing one, with no network call; the route-level
`persist_tokens_to_railway` checks all four identifiers and returns, with no
network call, a message listing exactly the missing ones. -/
theorem claim_C5_amended (cfg : RailwayClient.Config) (env : PersistEnv)
    (a r e t : String) :
    (pyTruthy cfg.api_token = false →
      RailwayClient.update_environment_variables_attempt cfg a r e t =
        RailwayClient.UpdateAttempt.configError
          { status := RailwayUpdateStatus.configuration_error
            error_message := some "RAILWAY_API_TOKEN not configured" })
    ∧ (pyTruthy cfg.api_token = true → pyTruthy cfg.project_id = false →
      RailwayClient.update_environment_variables_attempt cfg a r e t =
        RailwayClient.UpdateAttempt.configError
          { status := RailwayUpdateStatus.configuration_error
            error_message := some "RAILWAY_PROJECT_ID not configured" })
    ∧ (pyTruthy cfg.api_token = true → pyTruthy cfg.project_id = true →
      pyTruthy cfg.service_id = false →
      RailwayClient.update_environment_variables_attempt cfg a r e t =
        RailwayClient.UpdateAttempt.configError
          { status := RailwayUpdateStatus.configuration_error
            error_message := some "RAILWAY_SERVICE_ID not configured" })
    ∧ (¬ (pyTruthy env.railway_token = true ∧ pyTruthy env.project_id = true
        ∧ pyTruthy env.service_id = true ∧ pyTruthy env.environment_id = true) →
      persist_tokens_to_railway env a r = PersistAttempt.configError false
        ("Missing Railway config: " ++
          String.intercalate ", " (persist_missing env)))
    ∧ (∀ name, name ∈ persist_missing env ↔
      ((name = "RAILWAY_API_TOKEN" ∧ pyTruthy env.railway_token = false)
      ∨ (name = "RAILWAY_PROJECT_ID" ∧ pyTruthy env.project_id = false)
      ∨ (name = "RAILWAY_SERVICE_ID" ∧ pyTruthy env.service_id = false)
      ∨ (name = "RAILWAY_ENVIRONMENT_ID" ∧ pyTruthy env.environment_id = false))) := by
  refine ⟨fun h1 => ?_, fun h1 h2 => ?_, fun h1 h2 h3 => ?_, fun h => ?_, fun name => ?_⟩
  · simp [RailwayClient.update_environment_variables_attempt,
      RailwayClient.validate_configuration, h1]
  · simp [RailwayClient.update_environment_variables_attempt,
      RailwayClient.validate_configuration, h1, h2]
  · simp [RailwayClient.update_environment_variables_attempt,
      RailwayClient.validate_configuration, h1, h2, h3]
  · cases ht : pyTruthy env.railway_token <;>
      cases hp : pyTruthy env.project_id <;>
        cases hs : pyTruthy env.service_id <;>
          cases he : pyTruthy env.environment_id <;>
            simp [persist_tokens_to_railway, ht, hp, hs, he] at h ⊢
  · cases ht : pyTruthy env.railway_token <;>
      cases hp : pyTruthy env.project_id <;>
        cases hs : pyTruthy env.service_id <;>
          cases he : pyTruthy env.environment_id <;>
            simp [persist_missing, ht, hp, hs, he]

/-- Witness for the amended C5 on a concrete environment missing two
identifiers. -/
theorem claim_C5_witness :
    persist_tokens_to_railway
      { railway_token := none, project_id := some "p", service_id := some "s",
        environment_id := none } "a" "r"
      = PersistAttempt.configError false
        ("Missing Railway config: " ++ String.intercalate ", "
          (persist_missing
            { railway_token := none, project_id := some "p",
              service_id := some "s", environment_id := none })) :=
  (claim_C5_amended { api_token := none }
    { railway_token := none, project_id := some "p", service_id := some "s",
      environment_id := none } "a" "r" "e" "t").2.2.2.1 (by decide)

/-- C6: a successful publish writes exactly the four token variables, and
the success result carries exactly their names (a constant list independent
of the token values, hence containing no token values). -/
theorem claim_C6_publish_variable_names (cfg : RailwayClient.Config)
    (a r e t : String) (h1 : pyTruthy cfg.api_token = true)
    (h2 : pyTruthy cfg.project_id = true) (h3 : pyTruthy cfg.service_id = true) :
    RailwayClient.update_environment_variables_attempt cfg a r e t =
      RailwayClient.UpdateAttempt.networkRequest
        [("WITHINGS_ACCESS_TOKEN", a), ("WITHINGS_REFRESH_TOKEN", r),
         ("WITHINGS_TOKEN_EXPIRES_AT", e), ("WITHINGS_TOKEN_LAST_REFRESHED", t)]
    ∧ RailwayClient.update_environment_variables_success
        [("WITHINGS_ACCESS_TOKEN", a), ("WITHINGS_REFRESH_TOKEN", r),
         ("WITHINGS_TOKEN_EXPIRES_AT", e), ("WITHINGS_TOKEN_LAST_REFRESHED", t)] =
      { status := RailwayUpdateStatus.success
        variables_updated := ["WITHINGS_ACCESS_TOKEN", "WITHINGS_REFRESH_TOKEN",
          "WITHINGS_TOKEN_EXPIRES_AT", "WITHINGS_TOKEN_LAST_REFRESHED"] } := by
  constructor
  · simp [RailwayClient.update_environment_variables_attempt,
      RailwayClient.validate_configuration, h1, h2, h3]
  · rfl

/-- Witness for C6 on a fully configured client. -/
theorem claim_C6_witness :
    RailwayClient.update_environment_variables_attempt
      { api_token := some "tok", project_id := some "p", service_id := some "s",
        environment_id := some "production" } "A" "R" "E" "T"
      = RailwayClient.UpdateAttempt.networkRequest
        [("WITHINGS_ACCESS_TOKEN", "A"), ("WITHINGS_REFRESH_TOKEN", "R"),
         ("WITHINGS_TOKEN_EXPIRES_AT", "E"), ("WITHINGS_TOKEN_LAST_REFRESHED", "T")] :=
  (claim_C6_publish_variable_names
    { api_token := some "tok", project_id := some "p", service_id := some "s",
      environment_id := some "production" } "A" "R" "E" "T"
    rfl rfl rfl).1

/-- C7 counterexample: a refresh cycle that raises (for example a timeout) is
caught inside `refresh_token_job`, so the scheduler sleeps the normal
interval (7200 seconds by default) afterwards, not the 60-second backoff the
claim asserts. -/
theorem claim_C7_counterexample :
    scheduler_cycle REFRESH_INTERVAL_SECONDS
      (Except.error (PyExc.exception "Request timed out after 30 seconds")) =
      LoopStep.continueAfter 7200
    ∧ scheduler_cycle REFRESH_INTERVAL_SECONDS
      (Except.error (PyExc.exception "Request timed out after 30 seconds")) ≠
      LoopStep.continueAfter 60 := by
  exact ⟨rfl, by decide⟩

/-- C7 amended: a refresh cycle that raises or fails never terminates the
scheduler loop, but because `refresh_token_job` catches every exception the
next attempt is scheduled after the normal configured interval; the
60-second backoff applies only to exceptions that escape the job wrapper
into the loop body itself. -/
theorem claim_C7_amended (interval : Nat) (msg : String) (r : RefreshJobOutcome) :
    scheduler_cycle interval (Except.error (PyExc.exception msg)) =
      LoopStep.continueAfter interval
    ∧ scheduler_cycle interval (Except.ok r) = LoopStep.continueAfter interval
    ∧ scheduler_loop_body interval (Except.error (PyExc.exception msg)) =
      LoopStep.continueAfter 60 :=
  ⟨rfl, rfl, rfl⟩

/-- C8: `start_scheduler` on a state whose loop task is alive is a warning
no-op, and two successive starts from the stopped initial state leave exactly
one active timer loop. -/
theorem claim_C8_start_idempotent :
    (∀ s t, s.task = some t → t.done = false → start_scheduler s = (s, true))
    ∧ (start_scheduler (start_scheduler {}).1).1 = (start_scheduler {}).1
    ∧ (start_scheduler (start_scheduler {}).1).2 = true
    ∧ (start_scheduler (start_scheduler {}).1).1.activeLoops = 1 := by
  refine ⟨fun s t ht hd => ?_, by decide, by decide, by decide⟩
  simp [start_scheduler, ht, hd]

/-- Witness for C8 on a concrete running state. -/
theorem claim_C8_witness :
    start_scheduler
        { task := some { done := false }, running := true, activeLoops := 1 } =
      ({ task := some { done := false }, running := true, activeLoops := 1 }, true) :=
  claim_C8_start_idempotent.1 _ { done := false } rfl rfl

/-- C10: with no admin shared secret configured and the environment not set
to development, every header value is rejected by the shared gate of the four
gated admin operations (401 in the app variant) and by the route-level
variant (503). -/
theorem claim_C10_admin_gate_closed (env : AdminEnv) (hdr : Option String)
    (op : AdminOp) (hconf : pyTruthy env.admin_api_token = false)
    (henv : env.environment.getD "production" ≠ "development") :
    admin_op_gate_app op env hdr = Except.error 401
    ∧ verify_admin_token_src env hdr = Except.error 503 := by
  constructor
  · simp [admin_op_gate_app, verify_admin_token_app, hconf, henv]
  · simp [verify_admin_token_src, hconf]

/-- Witness for C10 on an unconfigured environment with an arbitrary header. -/
theorem claim_C10_witness :
    admin_op_gate_app AdminOp.tokenStatus {} (some "anything") = Except.error 401
    ∧ verify_admin_token_src {} (some "anything") = Except.error 503 :=
  claim_C10_admin_gate_closed {} (some "anything") AdminOp.tokenStatus rfl
    (by decide)

/-! ### Percent-encoding round-trip lemmas for C9 -/

theorem unquote_plus_nil : unquote_plus [] = [] := by
  rw [unquote_plus.eq_def]

theorem unquote_plus_cons (b : Nat) (rest : List Nat) :
    unquote_plus (b :: rest) =
      if b = 43 then 32 :: unquote_plus rest
      else if b = 37 then
        match rest with
        | h1 :: h2 :: rest2 =>
          if isHexDigit h1 && isHexDigit h2 then
            (16 * hexVal h1 + hexVal h2) :: unquote_plus rest2
          else 37 :: unquote_plus (h1 :: h2 :: rest2)
        | [h1] => 37 :: unquote_plus [h1]
        | [] => [37]
      else b :: unquote_plus rest := by
  rw [unquote_plus.eq_def]

theorem isHexDigit_hexDigit (n : Nat) (h : n < 16) :
    isHexDigit (hexDigit n) = true := by
  interval_cases n <;> rfl

theorem hexVal_hexDigit (n : Nat) (h : n < 16) : hexVal (hexDigit n) = n := by
  interval_cases n <;> rfl

theorem hexDigit_ne_special (n : Nat) : hexDigit n ≠ 38 ∧ hexDigit n ≠ 61 := by
  unfold hexDigit
  constructor <;> split <;> omega

theorem quotePlusByte_ne_special (b x : Nat) (hx : x ∈ quotePlusByte b) :
    x ≠ 38 ∧ x ≠ 61 := by
  unfold quotePlusByte at hx
  by_cases hsafe : safeByte b = true
  · simp [hsafe] at hx
    subst hx
    simp [safeByte] at hsafe
    constructor <;> omega
  · by_cases hsp : b = 32
    · subst hsp
      simp [show safeByte 32 = false from rfl] at hx
      subst hx
      exact ⟨by decide, by decide⟩
    · simp [hsafe, hsp] at hx
      rcases hx with rfl | rfl | rfl
      · exact ⟨by decide, by decide⟩
      · exact hexDigit_ne_special _
      · exact hexDigit_ne_special _

theorem quote_plus_no_amp (s : List Nat) : 38 ∉ quote_plus s := by
  intro hmem
  simp only [quote_plus, List.mem_flatten, List.mem_map] at hmem
  obtain ⟨l, ⟨b, _, rfl⟩, hb⟩ := hmem
  exact (quotePlusByte_ne_special b 38 hb).1 rfl

theorem quote_plus_no_eq (s : List Nat) : 61 ∉ quote_plus s := by
  intro hmem
  simp only [quote_plus, List.mem_flatten, List.mem_map] at hmem
  obtain ⟨l, ⟨b, _, rfl⟩, hb⟩ := hmem
  exact (quotePlusByte_ne_special b 61 hb).2 rfl

theorem unquote_quote (s : List Nat) (h : ∀ b ∈ s, b < 256) :
    unquote_plus (quote_plus s) = s := by
  induction s with
  | nil => simp [quote_plus, unquote_plus_nil]
  | cons b rest ih =>
    have hb : b < 256 := h b (by simp)
    have hrest : ∀ x ∈ rest, x < 256 := fun x hx => h x (by simp [hx])
    have step : quote_plus (b :: rest) = quotePlusByte b ++ quote_plus rest := by
      simp [quote_plus]
    rw [step]
    by_cases hsafe : safeByte b = true
    · have hb43 : ¬ b = 43 := by
        intro e; subst e; exact absurd hsafe (by decide)
      have hb37 : ¬ b = 37 := by
        intro e; subst e; exact absurd hsafe (by decide)
      simp [quotePlusByte, hsafe, unquote_plus_cons, hb43, hb37, ih hrest]
    · by_cases hsp : b = 32
      · subst hsp
        simp [quotePlusByte, hsafe, unquote_plus_cons, ih hrest]
      · have h1 : b / 16 < 16 := by omega
        have h2 : b % 16 < 16 := by omega
        simp [quotePlusByte, hsafe, hsp, unquote_plus_cons,
          isHexDigit_hexDigit _ h1, isHexDigit_hexDigit _ h2,
          hexVal_hexDigit _ h1, hexVal_hexDigit _ h2, ih hrest]
        omega

/-! ### Query-splitting lemmas for C9 -/

theorem splitAmp_no_amp (xs : List Nat) (h : 38 ∉ xs) : splitAmp xs = [xs] := by
  induction xs with
  | nil => rfl
  | cons b rest ih =>
    have hb : ¬ b = 38 := by intro e; subst e; exact h (by simp)
    have hrest : 38 ∉ rest := fun hx => h (by simp [hx])
    simp [splitAmp, hb, ih hrest]

theorem splitAmp_append (xs ys : List Nat) (h : 38 ∉ xs) :
    splitAmp (xs ++ 38 :: ys) = xs :: splitAmp ys := by
  induction xs with
  | nil => simp [splitAmp]
  | cons b rest ih =>
    have hb : ¬ b = 38 := by intro e; subst e; exact h (by simp)
    have hrest : 38 ∉ rest := fun hx => h (by simp [hx])
    simp [splitAmp, hb, ih hrest]

theorem splitEqFirst_append (xs ys : List Nat) (h : 61 ∉ xs) :
    splitEqFirst (xs ++ 61 :: ys) = (xs, ys) := by
  induction xs with
  | nil => simp [splitEqFirst]
  | cons b rest ih =>
    have hb : ¬ b = 61 := by intro e; subst e; exact h (by simp)
    have hrest : 61 ∉ rest := fun hx => h (by simp [hx])
    simp [splitEqFirst, hb, ih hrest]

theorem queryOf_append (xs ys : List Nat) (h : 63 ∉ xs) :
    queryOf (xs ++ 63 :: ys) = ys := by
  induction xs with
  | nil => simp [queryOf]
  | cons b rest ih =>
    have hb : ¬ b = 63 := by intro e; subst e; exact h (by simp)
    have hrest : 63 ∉ rest := fun hx => h (by simp [hx])
    simp [queryOf, hb, ih hrest]

theorem encodedPair_no_amp (p : List Nat × List Nat) :
    38 ∉ quote_plus p.1 ++ 61 :: quote_plus p.2 := by
  intro hmem
  rcases List.mem_append.mp hmem with h1 | h1
  · exact quote_plus_no_amp _ h1
  · rcases List.mem_cons.mp h1 with e | h2
    · exact absurd e (by decide)
    · exact quote_plus_no_amp _ h2

theorem splitAmp_urlencode (ps : List (List Nat × List Nat)) (h : ps ≠ []) :
    splitAmp (urlencode ps) =
      ps.map fun p => quote_plus p.1 ++ 61 :: quote_plus p.2 := by
  induction ps with
  | nil => exact absurd rfl h
  | cons p ps ih =>
    cases ps with
    | nil =>
      have e : urlencode [p] = quote_plus p.1 ++ 61 :: quote_plus p.2 := by
        simp [urlencode]
      rw [e, splitAmp_no_amp _ (encodedPair_no_amp p)]
      rfl
    | cons q qs =>
      have e : urlencode (p :: q :: qs) =
          (quote_plus p.1 ++ 61 :: quote_plus p.2) ++ 38 :: urlencode (q :: qs) := by
        simp [urlencode]
      rw [e, splitAmp_append _ _ (encodedPair_no_amp p), ih (by simp)]
      rfl

theorem parse_qs_urlencode (ps : List (List Nat × List Nat)) (h : ps ≠ []) :
    parse_qs (urlencode ps) =
      ps.map fun p =>
        (unquote_plus (quote_plus p.1), unquote_plus (quote_plus p.2)) := by
  unfold parse_qs
  rw [splitAmp_urlencode ps h, List.map_map]
  apply List.map_congr_left
  intro p _
  simp [Function.comp, splitEqFirst_append _ _ (quote_plus_no_eq p.1)]

/-- The parse of the authorization-URL query for a resolved state value
`sv`, with all inputs made of genuine bytes. -/
theorem parse_auth_query (client_id redirect_uri sv : List Nat)
    (hc : ∀ b ∈ client_id, b < 256) (hr : ∀ b ∈ redirect_uri, b < 256)
    (hs : ∀ b ∈ sv, b < 256) :
    parse_qs (queryOf (strBytes AUTHORIZATION_ENDPOINT ++ [63] ++ urlencode
      [(strBytes "response_type", strBytes "code"),
       (strBytes "client_id", client_id),
       (strBytes "redirect_uri", redirect_uri),
       (strBytes "scope", strBytes AUTH_SCOPE),
       (strBytes "state", sv)])) =
      [(strBytes "response_type", strBytes "code"),
       (strBytes "client_id", client_id),
       (strBytes "redirect_uri", redirect_uri),
       (strBytes "scope", strBytes AUTH_SCOPE),
       (strBytes "state", sv)] := by
  have hq : strBytes AUTHORIZATION_ENDPOINT ++ [63] ++ urlencode
      [(strBytes "response_type", strBytes "code"),
       (strBytes "client_id", client_id),
       (strBytes "redirect_uri", redirect_uri),
       (strBytes "scope", strBytes AUTH_SCOPE),
       (strBytes "state", sv)] =
      strBytes AUTHORIZATION_ENDPOINT ++ 63 :: urlencode
      [(strBytes "response_type", strBytes "code"),
       (strBytes "client_id", client_id),
       (strBytes "redirect_uri", redirect_uri),
       (strBytes "scope", strBytes AUTH_SCOPE),
       (strBytes "state", sv)] := by
    simp
  rw [hq, queryOf_append _ _ (by decide), parse_qs_urlencode _ (by simp)]
  simp only [List.map_cons, List.map_nil]
  rw [unquote_quote _ (by decide), unquote_quote _ (by decide),
    unquote_quote _ (by decide), unquote_quote _ hc,
    unquote_quote _ (by decide), unquote_quote _ hr,
    unquote_quote _ (by decide), unquote_quote _ (by decide),
    unquote_quote _ (by decide), unquote_quote _ hs]

/-- C9 counterexample: at the empty state string the produced URL carries the
fixed default "withings_oauth", so parsing does not recover the empty state;
the claim fails for `s = ""` because the source evaluates
`state or "withings_oauth"` on the (falsy) empty string. -/
theorem claim_C9_counterexample :
    parse_qs (queryOf
      (get_authorization_url (strBytes "cid") (strBytes "uri") (some []))) =
      [(strBytes "response_type", strBytes "code"),
       (strBytes "client_id", strBytes "cid"),
       (strBytes "redirect_uri", strBytes "uri"),
       (strBytes "scope", strBytes AUTH_SCOPE),
       (strBytes "state", strBytes "withings_oauth")]
    ∧ strBytes "withings_oauth" ≠ ([] : List Nat) := by
  constructor
  · have e : get_authorization_url (strBytes "cid") (strBytes "uri") (some []) =
        strBytes AUTHORIZATION_ENDPOINT ++ [63] ++ urlencode
          [(strBytes "response_type", strBytes "code"),
           (strBytes "client_id", strBytes "cid"),
           (strBytes "redirect_uri", strBytes "uri"),
           (strBytes "scope", strBytes AUTH_SCOPE),
           (strBytes "state", strBytes "withings_oauth")] := by
      rfl
    rw [e]
    exact parse_auth_query _ _ _ (by decide) (by decide) (by decide)
  · decide

/-- C9 amended: `get_authorization_url` is a pure function of client id,
redirect URI, scopes and state, and for every non-empty state byte string `s`
parsing the query of the produced URL recovers all five parameters exactly,
in particular `state == s` and the configured scopes; when the state is
absent or empty, the fixed constant "withings_oauth" is used instead. -/
theorem claim_C9_amended (client_id redirect_uri s : List Nat)
    (hc : ∀ b ∈ client_id, b < 256) (hr : ∀ b ∈ redirect_uri, b < 256)
    (hs : ∀ b ∈ s, b < 256) (hne : s ≠ []) :
    parse_qs (queryOf (get_authorization_url client_id redirect_uri (some s))) =
      [(strBytes "response_type", strBytes "code"),
       (strBytes "client_id", client_id),
       (strBytes "redirect_uri", redirect_uri),
       (strBytes "scope", strBytes AUTH_SCOPE),
       (strBytes "state", s)]
    ∧ get_authorization_url client_id redirect_uri none =
      get_authorization_url client_id redirect_uri (some []) := by
  constructor
  · have e : get_authorization_url client_id redirect_uri (some s) =
        strBytes AUTHORIZATION_ENDPOINT ++ [63] ++ urlencode
          [(strBytes "response_type", strBytes "code"),
           (strBytes "client_id", client_id),
           (strBytes "redirect_uri", redirect_uri),
           (strBytes "scope", strBytes AUTH_SCOPE),
           (strBytes "state", s)] := by
      simp [get_authorization_url, hne]
    rw [e]
    exact parse_auth_query _ _ _ hc hr hs
  · rfl

/-- Witness for the amended C9 at the concrete state "x". -/
theorem claim_C9_witness :
    parse_qs (queryOf
      (get_authorization_url (strBytes "cid") (strBytes "uri")
        (some (strBytes "x")))) =
      [(strBytes "response_type", strBytes "code"),
       (strBytes "client_id", strBytes "cid"),
       (strBytes "redirect_uri", strBytes "uri"),
       (strBytes "scope", strBytes AUTH_SCOPE),
       (strBytes "state", strBytes "x")] :=
  (claim_C9_amended (strBytes "cid") (strBytes "uri") (strBytes "x")
    (by decide) (by decide) (by decide) (by decide)).1

end WithingsMCP
